import Mathlib

/-!
Verification of the PyFluff Furby-Connect DLC transfer core.

The development shallowly embeds:
  * the binary command codec (`build_*_command`, `parse_response`);
  * the file-transfer notification handler (`file_transfer_callback`);
  * the chunked upload session of `DLCManager.upload_dlc`, modelled as a
    pure function from an environment (file existence, file bytes, the
    notification frames delivered during each wait window) to a result,
    an event trace of the external interactions, and the final session
    state;
  * the `set_antenna_color` tool of the MCP server.

The codec lives in `pyfluff/protocol.py`, which is not part of the
sources at hand; those definitions are modelled from the specification
(§4.1 command table) and are pinned by the expectations of
`tests/test_protocol.py`.  Everything else is translated from
`pyfluff/dlc.py` and `pyfluff/mcp_server.py`.
-/

namespace PyFluff

/-- Modelled from the spec: `FILE_CHUNK_SIZE` is defined in the absent
`pyfluff/protocol.py`; the spec fixes the chunk size at 20 bytes and
`tests/test_dlc.py` confirms (100 bytes yield 5 chunks). -/
def FILE_CHUNK_SIZE : Nat := 20

/-- Modelled from the spec: `FileTransferMode.READY_TO_RECEIVE` of the absent
`pyfluff/protocol.py`; value pinned by `tests/test_dlc.py` (frame `0x24 0x02`). -/
def READY_TO_RECEIVE : Nat := 0x02

/-- Modelled from the spec: `FileTransferMode.FILE_TRANSFER_TIMEOUT` of the absent
`pyfluff/protocol.py`; value pinned by `tests/test_dlc.py` (frame `0x24 0x03`). -/
def FILE_TRANSFER_TIMEOUT : Nat := 0x03

/-- Modelled from the spec: `FileTransferMode.FILE_RECEIVED_OK` of the absent
`pyfluff/protocol.py`; value pinned by `tests/test_dlc.py` (frame `0x24 0x05`). -/
def FILE_RECEIVED_OK : Nat := 0x05

/-- Modelled from the spec: `FileTransferMode.FILE_RECEIVED_ERROR` of the absent
`pyfluff/protocol.py`; value pinned by `tests/test_dlc.py` (frame `0x24 0x06`). -/
def FILE_RECEIVED_ERROR : Nat := 0x06

/-- Modelled from the spec: `FurbyProtocol.build_antenna_command` (spec §4.1:
`[0x14, r, g, b]`). -/
def build_antenna_command (r g b : Nat) : List Nat := [0x14, r, g, b]

/-- Modelled from the spec: `FurbyProtocol.build_action_command` (spec §4.1:
`[0x13, 0x00, input, index, subindex, specific]`). -/
def build_action_command (input index subindex specific : Nat) : List Nat :=
  [0x13, 0x00, input, index, subindex, specific]

/-- Modelled from the spec: `FurbyProtocol.build_lcd_command` (spec §4.1:
`[0xCD, on?1:0]`). -/
def build_lcd_command (enabled : Bool) : List Nat :=
  [0xCD, if enabled then 0x01 else 0x00]

/-- Modelled from the spec: `FurbyProtocol.build_debug_menu_command` (spec §4.1:
`[0xDB]`). -/
def build_debug_menu_command : List Nat := [0xDB]

/-- Modelled from the spec: `FurbyProtocol.build_name_command` (spec §4.1:
`[0x21, id]`). -/
def build_name_command (nameId : Nat) : List Nat := [0x21, nameId]

/-- Modelled from the spec: `FurbyProtocol.build_moodmeter_command` (spec §4.1:
`[0x23, action, type, value]`). -/
def build_moodmeter_command (action type value : Nat) : List Nat :=
  [0x23, action, type, value]

/-- Modelled from the spec: the 12-byte on-wire filename field (spec §6:
"filenames are always exactly 12 bytes on the wire (ASCII, zero-padded,
silently truncated if the logical name exceeds 12 characters)"). -/
def furbyFilenameBytes (name : String) : List Nat :=
  (name.data.map Char.toNat).take 12 ++ List.replicate (12 - name.length) 0

/-- Modelled from the spec: `FurbyProtocol.build_dlc_announce_command` (spec §4.1:
`[0x50, 0x00, (size>>16)&0xFF, (size>>8)&0xFF, size&0xFF, slot] ++
name[0:12 truncated/zero-padded]`). -/
def build_dlc_announce_command (size slot : Nat) (name : String) : List Nat :=
  [0x50, 0x00, (size >>> 16) % 256, (size >>> 8) % 256, size % 256, slot] ++
    furbyFilenameBytes name

/-- Modelled from the spec: `FurbyProtocol.build_load_dlc_command` (spec §4.1:
`[0x60, slot]`). -/
def build_load_dlc_command (slot : Nat) : List Nat := [0x60, slot]

/-- Modelled from the spec: `FurbyProtocol.build_activate_dlc_command` (spec §4.1:
`[0x61]`). -/
def build_activate_dlc_command : List Nat := [0x61]

/-- Modelled from the spec: `FurbyProtocol.build_deactivate_dlc_command` (spec §4.1:
`[0x62, slot]`). -/
def build_deactivate_dlc_command (slot : Nat) : List Nat := [0x62, slot]

/-- Modelled from the spec: `FurbyProtocol.build_delete_dlc_command` (spec §4.1:
`[0x74, slot]`). -/
def build_delete_dlc_command (slot : Nat) : List Nat := [0x74, slot]

/-- Modelled from the spec: `FurbyProtocol.build_nordic_packet_ack` (spec §4.1:
link-ack enable `[0x09, on?1:0, 0x00]`). -/
def build_nordic_packet_ack (enabled : Bool) : List Nat :=
  [0x09, if enabled then 0x01 else 0x00, 0x00]

/-- Modelled from the spec: `FurbyProtocol.parse_response` (spec §4.1: returns
`(opcode = frame[0], payload = frame[1:])`, fails with an `EmptyFrame`
condition on zero-length input; the failure is modelled as `none`). -/
def parse_response : List Nat → Option (Nat × List Nat)
  | [] => none
  | b :: rest => some (b, rest)

/-- The transfer-session signals of `DLCManager`: the `_transfer_ready`
latch, the `_transfer_complete` latch and the `_transfer_error` field
(`dlc.py`, `__init__`). -/
structure TransferState where
  ready : Bool
  complete : Bool
  error : Option String
  deriving DecidableEq, Repr

/-- The state of the latches after the reset in `upload_dlc`
(`dlc.py` lines 104-106). -/
def resetState : TransferState := ⟨false, false, none⟩

/-- Translation of `DLCManager._file_transfer_callback` (`dlc.py` lines
38-59): frames shorter than 2 bytes or not starting with `0x24` are
ignored; otherwise the second byte selects the latch update, and an
unrecognized code (a `ValueError` from the enum, caught and logged)
leaves the state unchanged. -/
def file_transfer_callback (s : TransferState) (data : List Nat) : TransferState :=
  match data with
  | a :: c :: _ =>
    if a ≠ 0x24 then s
    else if c = READY_TO_RECEIVE then { s with ready := true }
    else if c = FILE_RECEIVED_OK then { s with complete := true }
    else if c = FILE_RECEIVED_ERROR then
      { s with complete := true, error := some "File transfer failed" }
    else if c = FILE_TRANSFER_TIMEOUT then
      { s with complete := true, error := some "File transfer timeout" }
    else s
  | _ => s

/-- Observable interactions of `upload_dlc` with its collaborators: the
progress callback, `enable_nordic_packet_ack`, `add_gp_callback` /
callback removal, `_write_gp`, `_write_file`, `asyncio.sleep` (duration
in microseconds), and the progress computation `(offset / file_size) *
100` performed every 50 chunks (recorded with the operands of the
division). -/
inductive Event where
  | progressMsg (sent total : Nat)
  | enableNordicAck
  | subscribe
  | writeGp (cmd : List Nat)
  | writeFile (chunk : List Nat)
  | sleepUs (us : Nat)
  | progressDiv (offset total : Nat)
  | unsubscribe
  deriving DecidableEq, Repr

/-- The chunk partition computed by the `while offset < file_size` loop of
`upload_dlc` (`dlc.py` lines 137-141): successive slices
`dlc_data[offset : offset + FILE_CHUNK_SIZE]`. -/
def chunks (data : List Nat) : List (List Nat) :=
  match data with
  | [] => []
  | a :: rest =>
    (a :: rest).take FILE_CHUNK_SIZE :: chunks ((a :: rest).drop FILE_CHUNK_SIZE)
termination_by data.length
decreasing_by
  simp [FILE_CHUNK_SIZE]
  omega

/-- Event trace of the chunk-sending loop of `upload_dlc` (`dlc.py` lines
134-156): per chunk a `_write_file`, then the 0.002 s sleep, then— when
`chunk_count % 50 == 0`— the progress computation dividing by
`file_size`. -/
def sendChunks (data : List Nat) (offset cc fileSize : Nat) : List Event :=
  match data with
  | [] => []
  | a :: rest =>
    [Event.writeFile ((a :: rest).take FILE_CHUNK_SIZE), Event.sleepUs 2000] ++
      (if (cc + 1) % 50 = 0 then
        [Event.progressDiv (offset + ((a :: rest).take FILE_CHUNK_SIZE).length) fileSize]
      else []) ++
      sendChunks ((a :: rest).drop FILE_CHUNK_SIZE)
        (offset + ((a :: rest).take FILE_CHUNK_SIZE).length) (cc + 1) fileSize
termination_by data.length
decreasing_by
  simp [FILE_CHUNK_SIZE]
  omega

/-- Result of one `upload_dlc` call: normal return, or one of its raised
exceptions (`FileNotFoundError`; the two `RuntimeError` timeout paths of
the ready wait and the confirmation wait; the `RuntimeError` carrying
`_transfer_error`). -/
inductive UploadResult where
  | ok
  | fileNotFound
  | readyTimeout
  | confirmTimeout
  | deviceError (cause : String)
  deriving DecidableEq, Repr

/-- Environment of one `upload_dlc` call: whether `dlc_path.exists()`, the
bytes read from the file, `dlc_path.name`, and the notification frames
delivered to the registered callback up to the ready wait (`frames1`)
and between the ready wait and the confirmation wait (`frames2`). -/
structure UploadEnv where
  fileExists : Bool
  data : List Nat
  filename : String
  frames1 : List (List Nat)
  frames2 : List (List Nat)

/-- Outcome of one `upload_dlc` call: the result, the trace of external
interactions, whether `_file_transfer_callback` is still registered in
`furby._gp_callbacks` when the call returns, and the final latch
state. -/
structure UploadOutcome where
  result : UploadResult
  events : List Event
  registered : Bool
  state : TransferState

/-- Translation of `DLCManager.upload_dlc` (`dlc.py` lines 61-182).
The waits are modelled by folding the notification handler over the
frames delivered in the corresponding window and inspecting the latch:
the ready wait succeeds iff `_transfer_ready` is set after `frames1`,
the confirmation wait succeeds iff `_transfer_complete` is set after
`frames2`.  The `try/finally` is modelled by appending the callback
removal on every exit path that runs the `try` block. -/
def upload_dlc (env : UploadEnv) (slot : Nat) (enableNordicAck hasCb : Bool)
    (sIn : TransferState) : UploadOutcome :=
  if env.fileExists = false then
    { result := .fileNotFound, events := [], registered := false, state := sIn }
  else
    let fileSize := env.data.length
    let pre :=
      (if hasCb then [Event.progressMsg 0 fileSize] else []) ++
        (if enableNordicAck then [Event.enableNordicAck] else []) ++
        [Event.subscribe]
    let evAnn :=
      pre ++ [Event.writeGp (build_dlc_announce_command fileSize slot env.filename)] ++
        (if hasCb then [Event.progressMsg 0 fileSize] else [])
    let s1 := env.frames1.foldl file_transfer_callback resetState
    if s1.ready = false then
      { result := .readyTimeout, events := evAnn ++ [Event.unsubscribe],
        registered := false, state := s1 }
    else
      let evSent :=
        evAnn ++ (if hasCb then [Event.progressMsg 0 fileSize] else []) ++
          sendChunks env.data 0 0 fileSize ++
          (if hasCb then [Event.progressMsg fileSize fileSize] else [])
      let s2 := env.frames2.foldl file_transfer_callback s1
      if s2.complete = false then
        { result := .confirmTimeout, events := evSent ++ [Event.unsubscribe],
          registered := false, state := s2 }
      else
        match s2.error with
        | some e =>
          { result := .deviceError e, events := evSent ++ [Event.unsubscribe],
            registered := false, state := s2 }
        | none =>
          { result := .ok,
            events := evSent ++ (if hasCb then [Event.progressMsg fileSize fileSize] else []) ++
              [Event.unsubscribe],
            registered := false, state := s2 }

/-- The chunk payload of a `_write_file` event. -/
def writeFileData : Event → Option (List Nat)
  | .writeFile c => some c
  | _ => none

/-- The command bytes of a `_write_gp` event. -/
def writeGpData : Event → Option (List Nat)
  | .writeGp c => some c
  | _ => none

/-- The duration (in microseconds) of a sleep event. -/
def sleepDur : Event → Option Nat
  | .sleepUs d => some d
  | _ => none

/-- The operands of a progress-percentage division event. -/
def divOperands : Event → Option (Nat × Nat)
  | .progressDiv o t => some (o, t)
  | _ => none

/-- Translation of the `set_antenna_color` MCP tool (`mcp_server.py` lines
158-195): when not connected, or when an RGB component is outside 0-255,
it returns `success = False` without touching the device; otherwise it
writes the antenna command (built by `furby.set_antenna_color`, spec
§4.1: `[0x14, r, g, b]`) and reports `success = writeOk`, where
`writeOk` models whether the awaited write raised. -/
structure McpResult where
  success : Bool
  written : List (List Nat)
  deriving DecidableEq, Repr

/-- See `McpResult`; translation of the body of `set_antenna_color`. -/
def set_antenna_color (connected writeOk : Bool) (red green blue : Int) : McpResult :=
  if connected = false then
    { success := false, written := [] }
  else if ¬ (0 ≤ red ∧ red ≤ 255 ∧ 0 ≤ green ∧ green ≤ 255 ∧ 0 ≤ blue ∧ blue ≤ 255) then
    { success := false, written := [] }
  else
    { success := writeOk,
      written := [build_antenna_command red.toNat green.toNat blue.toNat] }

/-! Basic facts about the chunk partition. -/

theorem chunks_cons (a : Nat) (rest : List Nat) :
    chunks (a :: rest) =
      (a :: rest).take FILE_CHUNK_SIZE :: chunks ((a :: rest).drop FILE_CHUNK_SIZE) := by
  rw [chunks]

theorem chunks_length_sum (data : List Nat) :
    ((chunks data).map List.length).sum = data.length := by
  induction data using chunks.induct with
  | case1 => simp [chunks]
  | case2 a rest ih =>
    rw [chunks_cons]
    simp only [List.map_cons, List.sum_cons, ih, List.length_take, List.length_drop,
      List.length_cons]
    omega

theorem chunks_count (data : List Nat) :
    (chunks data).length = (data.length + (FILE_CHUNK_SIZE - 1)) / FILE_CHUNK_SIZE := by
  induction data using chunks.induct with
  | case1 => simp [chunks, FILE_CHUNK_SIZE]
  | case2 a rest ih =>
    rw [chunks_cons]
    rw [List.length_cons, ih, List.length_drop]
    simp only [FILE_CHUNK_SIZE, List.length_cons]
    omega

theorem chunks_length_le (data : List Nat) :
    ∀ c ∈ chunks data, c.length ≤ FILE_CHUNK_SIZE := by
  induction data using chunks.induct with
  | case1 => simp [chunks]
  | case2 a rest ih =>
    rw [chunks_cons]
    intro c hc
    rcases List.mem_cons.mp hc with h | h
    · subst h
      simp [List.length_take]
    · exact ih c h

theorem chunks_eq_nil_iff (data : List Nat) : chunks data = [] ↔ data = [] := by
  cases data with
  | nil => simp [chunks]
  | cons a rest =>
    rw [chunks_cons]
    simp

theorem chunks_dropLast_length (data : List Nat) :
    ∀ c ∈ (chunks data).dropLast, c.length = FILE_CHUNK_SIZE := by
  induction data using chunks.induct with
  | case1 => simp [chunks]
  | case2 a rest ih =>
    rw [chunks_cons]
    cases hrec : chunks ((a :: rest).drop FILE_CHUNK_SIZE) with
    | nil => simp
    | cons t ts =>
      intro c hc
      rw [List.dropLast_cons₂] at hc
      rcases List.mem_cons.mp hc with h | h
      · subst h
        have hne : ¬ (a :: rest).length ≤ FILE_CHUNK_SIZE := by
          intro hle
          rw [List.drop_eq_nil_of_le hle, chunks] at hrec
          exact List.noConfusion hrec
        simp only [List.length_take]
        omega
      · rw [← hrec] at h
        exact ih c h

/-! Facts about the event trace of the chunk-sending loop. -/

theorem sendChunks_writes (data : List Nat) (off cc fs : Nat) :
    (sendChunks data off cc fs).filterMap writeFileData = chunks data := by
  induction data using chunks.induct generalizing off cc with
  | case1 => simp [sendChunks, chunks]
  | case2 a rest ih =>
    rw [sendChunks, chunks_cons]
    by_cases hcc : (cc + 1) % 50 = 0 <;>
      simp [hcc, List.filterMap_append, writeFileData, ih]

theorem sendChunks_sleeps (data : List Nat) (off cc fs : Nat) :
    (sendChunks data off cc fs).filterMap sleepDur =
      List.replicate (chunks data).length 2000 := by
  induction data using chunks.induct generalizing off cc with
  | case1 => simp [sendChunks, chunks]
  | case2 a rest ih =>
    rw [sendChunks, chunks_cons]
    by_cases hcc : (cc + 1) % 50 = 0 <;>
      simp [hcc, List.filterMap_append, sleepDur, ih, List.replicate_succ]

theorem sendChunks_gp (data : List Nat) (off cc fs : Nat) :
    (sendChunks data off cc fs).filterMap writeGpData = [] := by
  induction data using chunks.induct generalizing off cc with
  | case1 => simp [sendChunks]
  | case2 a rest ih =>
    rw [sendChunks]
    by_cases hcc : (cc + 1) % 50 = 0 <;>
      simp [hcc, List.filterMap_append, writeGpData, ih]

theorem sendChunks_count_subscribe (data : List Nat) (off cc fs : Nat) :
    (sendChunks data off cc fs).count Event.subscribe = 0 := by
  induction data using chunks.induct generalizing off cc with
  | case1 => simp [sendChunks]
  | case2 a rest ih =>
    rw [sendChunks]
    by_cases hcc : (cc + 1) % 50 = 0 <;>
      simp [hcc, List.count_append, List.count_cons, ih]

theorem sendChunks_count_unsubscribe (data : List Nat) (off cc fs : Nat) :
    (sendChunks data off cc fs).count Event.unsubscribe = 0 := by
  induction data using chunks.induct generalizing off cc with
  | case1 => simp [sendChunks]
  | case2 a rest ih =>
    rw [sendChunks]
    by_cases hcc : (cc + 1) % 50 = 0 <;>
      simp [hcc, List.count_append, List.count_cons, ih]


theorem upload_writes (env : UploadEnv) (slot : Nat) (ack cb : Bool) (sIn : TransferState)
    (h1 : env.fileExists = true)
    (h2 : (env.frames1.foldl file_transfer_callback resetState).ready = true) :
    (upload_dlc env slot ack cb sIn).events.filterMap writeFileData = chunks env.data := by
  unfold upload_dlc
  cases hc : (env.frames2.foldl file_transfer_callback
      (env.frames1.foldl file_transfer_callback resetState)).complete with
  | false =>
    cases cb <;> cases ack <;>
      simp [h1, h2, hc, List.filterMap_append, writeFileData, sendChunks_writes]
  | true =>
    cases he : (env.frames2.foldl file_transfer_callback
        (env.frames1.foldl file_transfer_callback resetState)).error with
    | none =>
      cases cb <;> cases ack <;>
        simp [h1, h2, hc, he, List.filterMap_append, writeFileData, sendChunks_writes]
    | some e =>
      cases cb <;> cases ack <;>
        simp [h1, h2, hc, he, List.filterMap_append, writeFileData, sendChunks_writes]

/-- C1: the announce-DLC encode operation produces exactly the header
bytes `[0x50, 0x00, (size>>16)&0xFF, (size>>8)&0xFF, size&0xFF, slot]`
followed by exactly 12 filename bytes: the first 12 bytes of the name
when the name is 12 characters or longer (silent truncation), otherwise
the name zero-padded on the right to 12 bytes. -/
theorem announce_dlc_encoding (size slot : Nat) (name : String) :
    build_dlc_announce_command size slot name =
      [0x50, 0x00, size / 65536 % 256, size / 256 % 256, size % 256, slot] ++
        (if 12 ≤ name.length then (name.data.map Char.toNat).take 12
         else name.data.map Char.toNat ++ List.replicate (12 - name.length) 0) ∧
    (build_dlc_announce_command size slot name).length = 18 := by
  constructor
  · rw [build_dlc_announce_command, furbyFilenameBytes]
    rw [Nat.shiftRight_eq_div_pow, Nat.shiftRight_eq_div_pow]
    norm_num
    by_cases h : 12 ≤ name.length
    · rw [if_pos h]
      have h0 : 12 - name.length = 0 := by omega
      rw [h0]
      simp
    · rw [if_neg h]
      have htake : (name.data.map Char.toNat).take 12 = name.data.map Char.toNat := by
        apply List.take_of_length_le
        rw [List.length_map, String.length_data]
        omega
      rw [htake]
  · rw [build_dlc_announce_command, furbyFilenameBytes]
    simp only [List.length_append, List.length_take, List.length_map, List.length_replicate,
      String.length_data, List.length_cons, List.length_nil]
    omega

/-- C7: for every command produced by a valid encode operation,
`parse_response` applied to the encoded bytes recovers the original
opcode as the first element and the remaining bytes as the payload;
applied to the empty frame it fails with the empty-frame error
condition (modelled as `none`). -/
theorem parse_response_roundtrip (r g b input index subindex specific nid ma mt mv size slot : Nat)
    (name : String) (enabled : Bool) :
    parse_response (build_antenna_command r g b) = some (0x14, [r, g, b]) ∧
    parse_response (build_action_command input index subindex specific) =
      some (0x13, [0x00, input, index, subindex, specific]) ∧
    parse_response (build_lcd_command enabled) =
      some (0xCD, [if enabled then 0x01 else 0x00]) ∧
    parse_response build_debug_menu_command = some (0xDB, []) ∧
    parse_response (build_name_command nid) = some (0x21, [nid]) ∧
    parse_response (build_moodmeter_command ma mt mv) = some (0x23, [ma, mt, mv]) ∧
    parse_response (build_dlc_announce_command size slot name) =
      some (0x50, [0x00, (size >>> 16) % 256, (size >>> 8) % 256, size % 256, slot] ++
        furbyFilenameBytes name) ∧
    parse_response (build_load_dlc_command slot) = some (0x60, [slot]) ∧
    parse_response build_activate_dlc_command = some (0x61, []) ∧
    parse_response (build_deactivate_dlc_command slot) = some (0x62, [slot]) ∧
    parse_response (build_delete_dlc_command slot) = some (0x74, [slot]) ∧
    parse_response (build_nordic_packet_ack enabled) =
      some (0x09, [if enabled then 0x01 else 0x00, 0x00]) ∧
    parse_response [] = none := by
  simp [parse_response, build_antenna_command, build_action_command, build_lcd_command,
    build_debug_menu_command, build_name_command, build_moodmeter_command,
    build_dlc_announce_command, build_load_dlc_command, build_activate_dlc_command,
    build_deactivate_dlc_command, build_delete_dlc_command, build_nordic_packet_ack]

/-- C9: for every call of the `set_antenna_color` tool while connected,
the tool reports success and writes the antenna command exactly when all
of red, green and blue lie within 0..255 (and the awaited write does not
raise); when any component is out of range it returns `success = false`
and writes nothing to the device. -/
theorem antenna_color_range_validation (writeOk : Bool) (red green blue : Int) :
    (set_antenna_color true writeOk red green blue).success =
      (decide (0 ≤ red ∧ red ≤ 255 ∧ 0 ≤ green ∧ green ≤ 255 ∧ 0 ≤ blue ∧ blue ≤ 255)
        && writeOk) ∧
    (set_antenna_color true writeOk red green blue).written =
      (if 0 ≤ red ∧ red ≤ 255 ∧ 0 ≤ green ∧ green ≤ 255 ∧ 0 ≤ blue ∧ blue ≤ 255 then
        [[0x14, red.toNat, green.toNat, blue.toNat]]
      else []) := by
  by_cases h : 0 ≤ red ∧ red ≤ 255 ∧ 0 ≤ green ∧ green ≤ 255 ∧ 0 ≤ blue ∧ blue ≤ 255 <;>
    simp [set_antenna_color, build_antenna_command, h]

/-- C8: if the content source does not exist, `upload_dlc` fails
immediately with the input-not-found error before any protocol
interaction: the event trace is empty (no command write, no data chunk,
no link-ack command, no handler subscription) and the session state is
left unchanged. -/
theorem upload_missing_file_preflight (env : UploadEnv) (slot : Nat) (ack cb : Bool)
    (sIn : TransferState) (h : env.fileExists = false) :
    (upload_dlc env slot ack cb sIn).result = UploadResult.fileNotFound ∧
    (upload_dlc env slot ack cb sIn).events = [] ∧
    (upload_dlc env slot ack cb sIn).registered = false ∧
    (upload_dlc env slot ack cb sIn).state = sIn := by
  unfold upload_dlc
  simp [h]

/-- C5: if the ready latch is not set within the ready-wait window,
`upload_dlc` returns the ready-phase timeout failure and writes no
content chunk to the data channel in that run. -/
theorem upload_ready_timeout_no_chunks (env : UploadEnv) (slot : Nat) (ack cb : Bool)
    (sIn : TransferState) (h1 : env.fileExists = true)
    (h2 : (env.frames1.foldl file_transfer_callback resetState).ready = false) :
    (upload_dlc env slot ack cb sIn).result = UploadResult.readyTimeout ∧
    (upload_dlc env slot ack cb sIn).events.filterMap writeFileData = [] := by
  unfold upload_dlc
  cases cb <;> cases ack <;> simp [h1, h2, List.filterMap_append, writeFileData]

/-- C3: on every exit path of `upload_dlc` the notification handler is
removed before the call returns: the handler is never left registered,
and the trace contains exactly as many handler removals as handler
registrations. -/
theorem upload_unsubscribes_on_every_path (env : UploadEnv) (slot : Nat) (ack cb : Bool)
    (sIn : TransferState) :
    (upload_dlc env slot ack cb sIn).registered = false ∧
    (upload_dlc env slot ack cb sIn).events.count Event.subscribe =
      (upload_dlc env slot ack cb sIn).events.count Event.unsubscribe := by
  unfold upload_dlc
  cases hex : env.fileExists with
  | false => simp [hex]
  | true =>
    cases hr : (env.frames1.foldl file_transfer_callback resetState).ready with
    | false =>
      cases cb <;> cases ack <;>
        simp [hex, hr, List.count_append, List.count_cons]
    | true =>
      cases hc : (env.frames2.foldl file_transfer_callback
          (env.frames1.foldl file_transfer_callback resetState)).complete with
      | false =>
        cases cb <;> cases ack <;>
          simp [hex, hr, hc, List.count_append, List.count_cons,
            sendChunks_count_subscribe, sendChunks_count_unsubscribe]
      | true =>
        cases he : (env.frames2.foldl file_transfer_callback
            (env.frames1.foldl file_transfer_callback resetState)).error with
        | none =>
          cases cb <;> cases ack <;>
            simp [hex, hr, hc, he, List.count_append, List.count_cons,
              sendChunks_count_subscribe, sendChunks_count_unsubscribe]
        | some e =>
          cases cb <;> cases ack <;>
            simp [hex, hr, hc, he, List.count_append, List.count_cons,
              sendChunks_count_subscribe, sendChunks_count_unsubscribe]

/-- C6 (amended): after every chunk write during the send phase
`upload_dlc` sleeps a fixed inter-chunk delay of 2 milliseconds — the
trace carries exactly one 2000-microsecond sleep per data-channel
write, on every execution path; the delay is a hard-coded constant of
the loop, not configurable through the upload options. -/
theorem interchunk_delay_fixed_2ms (env : UploadEnv) (slot : Nat) (ack cb : Bool)
    (sIn : TransferState) :
    (upload_dlc env slot ack cb sIn).events.filterMap sleepDur =
      List.replicate
        ((upload_dlc env slot ack cb sIn).events.filterMap writeFileData).length 2000 := by
  unfold upload_dlc
  cases hex : env.fileExists with
  | false => simp [hex]
  | true =>
    cases hr : (env.frames1.foldl file_transfer_callback resetState).ready with
    | false =>
      cases cb <;> cases ack <;>
        simp [hex, hr, List.filterMap_append, sleepDur, writeFileData]
    | true =>
      cases hc : (env.frames2.foldl file_transfer_callback
          (env.frames1.foldl file_transfer_callback resetState)).complete with
      | false =>
        cases cb <;> cases ack <;>
          simp [hex, hr, hc, List.filterMap_append, sleepDur, writeFileData,
            sendChunks_sleeps, sendChunks_writes]
      | true =>
        cases he : (env.frames2.foldl file_transfer_callback
            (env.frames1.foldl file_transfer_callback resetState)).error with
        | none =>
          cases cb <;> cases ack <;>
            simp [hex, hr, hc, he, List.filterMap_append, sleepDur, writeFileData,
              sendChunks_sleeps, sendChunks_writes]
        | some e =>
          cases cb <;> cases ack <;>
            simp [hex, hr, hc, he, List.filterMap_append, sleepDur, writeFileData,
              sendChunks_sleeps, sendChunks_writes]

/-- C6 (counterexample): on a concrete one-chunk upload that runs to
completion, the only sleep performed after the chunk write lasts 2000
microseconds (2 ms) — the code's hard-coded `asyncio.sleep(0.002)` —
which is not approximately 20 milliseconds (it lies far outside even the
generous window 10 ms – 40 ms), and `upload_dlc` exposes no option to
tune it. -/
theorem interchunk_delay_not_approx_20ms :
    (upload_dlc ⟨true, [1, 2, 3], "A.DLC", [[0x24, 0x02]], [[0x24, 0x05]]⟩
        2 true false resetState).events.filterMap sleepDur = [2000] ∧
    ¬ (10000 ≤ 2000 ∧ 2000 ≤ 40000) := by
  constructor
  · simp [upload_dlc, resetState, file_transfer_callback, READY_TO_RECEIVE, FILE_RECEIVED_OK,
      FILE_RECEIVED_ERROR, FILE_TRANSFER_TIMEOUT, sendChunks, sleepDur, writeFileData,
      List.filterMap_append, FILE_CHUNK_SIZE]
  · omega

/-- C2: for every content byte sequence, on every run that reaches the
send phase the chunk writes partition the content: the written chunk
lengths sum to the total content length, every chunk is at most
`FILE_CHUNK_SIZE` (20) bytes, all chunks but the last are exactly 20
bytes, and exactly `ceil(length / 20)` chunks are written. -/
theorem upload_chunking (env : UploadEnv) (slot : Nat) (ack cb : Bool) (sIn : TransferState)
    (h1 : env.fileExists = true)
    (h2 : (env.frames1.foldl file_transfer_callback resetState).ready = true) :
    (((upload_dlc env slot ack cb sIn).events.filterMap writeFileData).map List.length).sum =
      env.data.length ∧
    ((upload_dlc env slot ack cb sIn).events.filterMap writeFileData).all
      (fun c => decide (c.length ≤ FILE_CHUNK_SIZE)) = true ∧
    ((upload_dlc env slot ack cb sIn).events.filterMap writeFileData).length =
      (env.data.length + (FILE_CHUNK_SIZE - 1)) / FILE_CHUNK_SIZE ∧
    (((upload_dlc env slot ack cb sIn).events.filterMap writeFileData).map
        List.length).dropLast.all (fun n => decide (n = FILE_CHUNK_SIZE)) = true := by
  rw [upload_writes env slot ack cb sIn h1 h2]
  refine ⟨chunks_length_sum _, ?_, chunks_count _, ?_⟩
  · rw [List.all_eq_true]
    intro c hc
    simpa using chunks_length_le env.data c hc
  · rw [← List.map_dropLast, List.all_eq_true]
    intro n hn
    rcases List.mem_map.mp hn with ⟨c, hc, rfl⟩
    simpa using chunks_dropLast_length env.data c hc

/-- C4: a `FileReceivedError` or `FileTransferTimeout` status frame sets
the complete-latch and records its distinct failure cause, and the
upload then fails with the device-reported error carrying that cause; a
`FileReceivedOk` frame sets the complete-latch with no recorded error
and the upload succeeds. -/
theorem transfer_status_failure_propagation (s : TransferState) (env : UploadEnv) (slot : Nat)
    (ack cb : Bool) (sIn : TransferState) (hs : s.error = none)
    (h1 : env.fileExists = true)
    (h2 : env.frames1.foldl file_transfer_callback resetState = ⟨true, false, none⟩) :
    (file_transfer_callback s [0x24, FILE_RECEIVED_ERROR]).complete = true ∧
    (file_transfer_callback s [0x24, FILE_RECEIVED_ERROR]).error =
      some "File transfer failed" ∧
    (file_transfer_callback s [0x24, FILE_TRANSFER_TIMEOUT]).complete = true ∧
    (file_transfer_callback s [0x24, FILE_TRANSFER_TIMEOUT]).error =
      some "File transfer timeout" ∧
    (file_transfer_callback s [0x24, FILE_RECEIVED_OK]).complete = true ∧
    (file_transfer_callback s [0x24, FILE_RECEIVED_OK]).error = none ∧
    (env.frames2 = [[0x24, FILE_RECEIVED_ERROR]] →
      (upload_dlc env slot ack cb sIn).result =
        UploadResult.deviceError "File transfer failed") ∧
    (env.frames2 = [[0x24, FILE_TRANSFER_TIMEOUT]] →
      (upload_dlc env slot ack cb sIn).result =
        UploadResult.deviceError "File transfer timeout") ∧
    (env.frames2 = [[0x24, FILE_RECEIVED_OK]] →
      (upload_dlc env slot ack cb sIn).result = UploadResult.ok) := by
  refine ⟨?_, ?_, ?_, ?_, ?_, ?_, ?_, ?_, ?_⟩
  · simp [file_transfer_callback, FILE_RECEIVED_ERROR, FILE_RECEIVED_OK,
      FILE_TRANSFER_TIMEOUT, READY_TO_RECEIVE]
  · simp [file_transfer_callback, FILE_RECEIVED_ERROR, FILE_RECEIVED_OK,
      FILE_TRANSFER_TIMEOUT, READY_TO_RECEIVE]
  · simp [file_transfer_callback, FILE_RECEIVED_ERROR, FILE_RECEIVED_OK,
      FILE_TRANSFER_TIMEOUT, READY_TO_RECEIVE]
  · simp [file_transfer_callback, FILE_RECEIVED_ERROR, FILE_RECEIVED_OK,
      FILE_TRANSFER_TIMEOUT, READY_TO_RECEIVE]
  · simp [file_transfer_callback, FILE_RECEIVED_ERROR, FILE_RECEIVED_OK,
      FILE_TRANSFER_TIMEOUT, READY_TO_RECEIVE]
  · simp [file_transfer_callback, FILE_RECEIVED_ERROR, FILE_RECEIVED_OK,
      FILE_TRANSFER_TIMEOUT, READY_TO_RECEIVE, hs]
  · intro hf
    unfold upload_dlc
    simp [h1, h2, hf, file_transfer_callback, FILE_RECEIVED_ERROR, FILE_RECEIVED_OK,
      FILE_TRANSFER_TIMEOUT, READY_TO_RECEIVE]
  · intro hf
    unfold upload_dlc
    simp [h1, h2, hf, file_transfer_callback, FILE_RECEIVED_ERROR, FILE_RECEIVED_OK,
      FILE_TRANSFER_TIMEOUT, READY_TO_RECEIVE]
  · intro hf
    unfold upload_dlc
    simp [h1, h2, hf, file_transfer_callback, FILE_RECEIVED_ERROR, FILE_RECEIVED_OK,
      FILE_TRANSFER_TIMEOUT, READY_TO_RECEIVE]

/-- C10: if the content source exists but is empty, `upload_dlc` still
sends the announce command with total size 0 and proceeds through the
ready-wait and confirmation phases to success, but performs zero
data-channel writes and performs no progress-percentage division by the
total size. -/
theorem upload_empty_file (env : UploadEnv) (slot : Nat) (ack cb : Bool) (sIn : TransferState)
    (h1 : env.fileExists = true) (hd : env.data = [])
    (h2 : (env.frames1.foldl file_transfer_callback resetState).ready = true)
    (h3 : (env.frames2.foldl file_transfer_callback
        (env.frames1.foldl file_transfer_callback resetState)).complete = true)
    (h4 : (env.frames2.foldl file_transfer_callback
        (env.frames1.foldl file_transfer_callback resetState)).error = none) :
    (upload_dlc env slot ack cb sIn).result = UploadResult.ok ∧
    (upload_dlc env slot ack cb sIn).events.filterMap writeGpData =
      [build_dlc_announce_command 0 slot env.filename] ∧
    (upload_dlc env slot ack cb sIn).events.filterMap writeFileData = [] ∧
    (upload_dlc env slot ack cb sIn).events.filterMap divOperands = [] := by
  unfold upload_dlc
  cases cb <;> cases ack <;>
    simp [h1, h2, h3, h4, hd, List.filterMap_append, writeGpData, writeFileData,
      divOperands, sendChunks]

theorem upload_chunking_check :
    ((⟨true, List.range 45, "TEST.DLC", [[0x24, 0x02]], [[0x24, 0x05]]⟩ :
        UploadEnv).fileExists = true) ∧
    (((⟨true, List.range 45, "TEST.DLC", [[0x24, 0x02]], [[0x24, 0x05]]⟩ :
        UploadEnv).frames1.foldl file_transfer_callback resetState).ready = true) ∧
    ((((upload_dlc ⟨true, List.range 45, "TEST.DLC", [[0x24, 0x02]], [[0x24, 0x05]]⟩
        2 true false resetState).events.filterMap writeFileData).map List.length).sum =
      (⟨true, List.range 45, "TEST.DLC", [[0x24, 0x02]], [[0x24, 0x05]]⟩ :
        UploadEnv).data.length ∧
    ((upload_dlc ⟨true, List.range 45, "TEST.DLC", [[0x24, 0x02]], [[0x24, 0x05]]⟩
        2 true false resetState).events.filterMap writeFileData).all
      (fun c => decide (c.length ≤ FILE_CHUNK_SIZE)) = true ∧
    ((upload_dlc ⟨true, List.range 45, "TEST.DLC", [[0x24, 0x02]], [[0x24, 0x05]]⟩
        2 true false resetState).events.filterMap writeFileData).length =
      ((⟨true, List.range 45, "TEST.DLC", [[0x24, 0x02]], [[0x24, 0x05]]⟩ :
        UploadEnv).data.length + (FILE_CHUNK_SIZE - 1)) / FILE_CHUNK_SIZE ∧
    (((upload_dlc ⟨true, List.range 45, "TEST.DLC", [[0x24, 0x02]], [[0x24, 0x05]]⟩
        2 true false resetState).events.filterMap writeFileData).map
        List.length).dropLast.all (fun n => decide (n = FILE_CHUNK_SIZE)) = true) :=
  ⟨rfl, by decide,
    upload_chunking ⟨true, List.range 45, "TEST.DLC", [[0x24, 0x02]], [[0x24, 0x05]]⟩
      2 true false resetState rfl (by decide)⟩

theorem transfer_status_failure_propagation_check :
    (resetState.error = none) ∧
    ((⟨true, [7], "A.DLC", [[0x24, 0x02]], [[0x24, 0x06]]⟩ : UploadEnv).fileExists = true) ∧
    ((⟨true, [7], "A.DLC", [[0x24, 0x02]], [[0x24, 0x06]]⟩ :
        UploadEnv).frames1.foldl file_transfer_callback resetState = ⟨true, false, none⟩) ∧
    ((⟨true, [7], "A.DLC", [[0x24, 0x02]], [[0x24, 0x06]]⟩ : UploadEnv).frames2 =
        [[0x24, FILE_RECEIVED_ERROR]] →
      (upload_dlc ⟨true, [7], "A.DLC", [[0x24, 0x02]], [[0x24, 0x06]]⟩
          2 true false resetState).result =
        UploadResult.deviceError "File transfer failed") :=
  ⟨rfl, rfl, by decide,
    ((transfer_status_failure_propagation resetState
      ⟨true, [7], "A.DLC", [[0x24, 0x02]], [[0x24, 0x06]]⟩ 2 true false resetState
      rfl rfl (by decide)).2.2.2.2.2.2).1⟩

theorem upload_ready_timeout_no_chunks_check :
    ((⟨true, [7], "A.DLC", [], []⟩ : UploadEnv).fileExists = true) ∧
    (((⟨true, [7], "A.DLC", [], []⟩ : UploadEnv).frames1.foldl
        file_transfer_callback resetState).ready = false) ∧
    ((upload_dlc ⟨true, [7], "A.DLC", [], []⟩ 2 true false resetState).result =
      UploadResult.readyTimeout ∧
    (upload_dlc ⟨true, [7], "A.DLC", [], []⟩ 2 true false
      resetState).events.filterMap writeFileData = []) :=
  ⟨rfl, rfl,
    upload_ready_timeout_no_chunks ⟨true, [7], "A.DLC", [], []⟩ 2 true false resetState
      rfl rfl⟩

theorem upload_missing_file_preflight_check :
    ((⟨false, [], "A.DLC", [], []⟩ : UploadEnv).fileExists = false) ∧
    ((upload_dlc ⟨false, [], "A.DLC", [], []⟩ 2 true false resetState).result =
      UploadResult.fileNotFound ∧
    (upload_dlc ⟨false, [], "A.DLC", [], []⟩ 2 true false resetState).events = [] ∧
    (upload_dlc ⟨false, [], "A.DLC", [], []⟩ 2 true false resetState).registered = false ∧
    (upload_dlc ⟨false, [], "A.DLC", [], []⟩ 2 true false resetState).state = resetState) :=
  ⟨rfl, upload_missing_file_preflight ⟨false, [], "A.DLC", [], []⟩ 2 true false resetState rfl⟩

theorem upload_empty_file_check :
    ((⟨true, [], "E.DLC", [[0x24, 0x02]], [[0x24, 0x05]]⟩ : UploadEnv).fileExists = true) ∧
    ((⟨true, [], "E.DLC", [[0x24, 0x02]], [[0x24, 0x05]]⟩ : UploadEnv).data = []) ∧
    (((⟨true, [], "E.DLC", [[0x24, 0x02]], [[0x24, 0x05]]⟩ : UploadEnv).frames1.foldl
        file_transfer_callback resetState).ready = true) ∧
    (((⟨true, [], "E.DLC", [[0x24, 0x02]], [[0x24, 0x05]]⟩ : UploadEnv).frames2.foldl
        file_transfer_callback
        ((⟨true, [], "E.DLC", [[0x24, 0x02]], [[0x24, 0x05]]⟩ : UploadEnv).frames1.foldl
          file_transfer_callback resetState)).complete = true) ∧
    (((⟨true, [], "E.DLC", [[0x24, 0x02]], [[0x24, 0x05]]⟩ : UploadEnv).frames2.foldl
        file_transfer_callback
        ((⟨true, [], "E.DLC", [[0x24, 0x02]], [[0x24, 0x05]]⟩ : UploadEnv).frames1.foldl
          file_transfer_callback resetState)).error = none) ∧
    ((upload_dlc ⟨true, [], "E.DLC", [[0x24, 0x02]], [[0x24, 0x05]]⟩
        2 true false resetState).result = UploadResult.ok ∧
    (upload_dlc ⟨true, [], "E.DLC", [[0x24, 0x02]], [[0x24, 0x05]]⟩
        2 true false resetState).events.filterMap writeGpData =
      [build_dlc_announce_command 0 2
        (⟨true, [], "E.DLC", [[0x24, 0x02]], [[0x24, 0x05]]⟩ : UploadEnv).filename] ∧
    (upload_dlc ⟨true, [], "E.DLC", [[0x24, 0x02]], [[0x24, 0x05]]⟩
        2 true false resetState).events.filterMap writeFileData = [] ∧
    (upload_dlc ⟨true, [], "E.DLC", [[0x24, 0x02]], [[0x24, 0x05]]⟩
        2 true false resetState).events.filterMap divOperands = []) :=
  ⟨rfl, rfl, by decide, by decide, by decide,
    upload_empty_file ⟨true, [], "E.DLC", [[0x24, 0x02]], [[0x24, 0x05]]⟩
      2 true false resetState rfl rfl (by decide) (by decide) (by decide)⟩

example : build_dlc_announce_command 12345 2 "TEST.DLC" =
    [0x50, 0x00, 0x00, 0x30, 0x39, 2, 84, 69, 83, 84, 46, 68, 76, 67, 0, 0, 0, 0] := by
  decide

example : (build_dlc_announce_command 1000 0 "A.DLC").drop 6 =
    [65, 46, 68, 76, 67, 0, 0, 0, 0, 0, 0, 0] := by
  decide

example : (build_dlc_announce_command 1000 0 "EXACTLY12CHR").drop 6 =
    [69, 88, 65, 67, 84, 76, 89, 49, 50, 67, 72, 82] := by
  decide

example : (build_dlc_announce_command 1000 0 "VERYLONGFILENAME.DLC").drop 6 =
    [86, 69, 82, 89, 76, 79, 78, 71, 70, 73, 76, 69] := by
  decide

example : parse_response [0x20, 0x06, 0x01, 0x02] = some (0x20, [0x06, 0x01, 0x02]) := by
  decide

example : file_transfer_callback resetState [0x24, 0x02] = ⟨true, false, none⟩ := by
  decide

example : file_transfer_callback resetState [0x24, 0xFF] = resetState := by
  decide

example : file_transfer_callback resetState [0x23, 0x02] = resetState := by
  decide

example : file_transfer_callback resetState [0x24] = resetState := by
  decide

example : (chunks (List.range 100)).length = 5 := by
  rw [chunks_count]
  simp [FILE_CHUNK_SIZE]

end PyFluff
